import Mathlib

/-!
Verification development for the efi-runner tool (src/src/main.rs,
src/src/hypervisor.rs): a shallow embedding of the machine-descriptor
builder, the operation bridge, the lifecycle orchestration in
`Hypervisor::build`, and the console-proxy attach loop, together with
theorems about them.

Paths are modelled as strings (the tool runs on canonicalized Windows
paths, components separated by single backslashes).  Machine integers
(`u8`, `u32`, `u64`) are modelled as `Nat`: the only arithmetic on them
in the source is widening casts, which cannot overflow.
-/

/-- Model of hcs-rs `ResultCode` (a service-defined HRESULT-like code).
Only `Unexpected` is named by the source; all other values are carried
as their numeric code. -/
inductive ResultCode where
  | unexpected
  | hresult (n : Int)
deriving DecidableEq, Repr

/-- Model of the Rust `OperationResult = Result<String, (ResultCode, String)>`:
the awaited outcome of one asynchronous service operation. -/
inductive OperationResult where
  | ok (response : String)
  | err (code : ResultCode) (response : String)
deriving DecidableEq, Repr

/-- CLI arguments after parsing and canonicalization (main.rs `CLIArgs`). -/
structure CLIArgs where
  efi_file : String
  disks : List String
  memory : Nat
  cores : Nat
deriving DecidableEq, Repr

/- ## Descriptor data model (hcs-rs schema types, as instantiated by the source) -/

inductive AttachmentType where
  | virtualDisk
deriving DecidableEq, Repr

structure Attachment where
  attachment_type : AttachmentType
  path : String
deriving DecidableEq, Repr

/-- One SCSI controller entry: a keyed map of attachments (modelled as an
association list, key `u32`). -/
structure ScsiDev where
  attachments : List (Nat × Attachment)
deriving DecidableEq, Repr

structure ComPort where
  named_pipe : String
  optimize_for_debugger : Bool
deriving DecidableEq, Repr

inductive UefiBootDevice where
  | vmbFs
deriving DecidableEq, Repr

structure UefiBootEntry where
  device_type : UefiBootDevice
  device_path : String
  disk_number : Nat
deriving DecidableEq, Repr

inductive SerialConsole where
  | off
  | comPort1
deriving DecidableEq, Repr

structure Uefi where
  enable_debugger : Bool
  secure_boot_template_id : Option String
  boot_this : Option UefiBootEntry
  console : SerialConsole
  stop_on_boot_failure : Bool
deriving DecidableEq, Repr

structure Chipset where
  uefi : Option Uefi
deriving DecidableEq, Repr

structure MemoryCfg where
  size_in_mb : Nat
deriving DecidableEq, Repr

structure Processor where
  count : Nat
  limit : Option Nat
  weight : Option Nat
  expose_virtualization_extensions : Bool
deriving DecidableEq, Repr

structure Topology where
  memory : MemoryCfg
  processor : Processor
deriving DecidableEq, Repr

structure VirtualSmbShareOptions where
  restrict_file_access : Bool
  single_file_mapping : Bool
  read_only : Bool
  pseudo_oplocks : Bool
  take_backup_privilege : Bool
  cacheIo : Bool
  share_read : Bool
deriving DecidableEq, Repr

structure VirtualSmbShare where
  name : String
  path : String
  allowed_files : List String
  options : VirtualSmbShareOptions
deriving DecidableEq, Repr

structure VirtualSmb where
  shares : List VirtualSmbShare
  direct_file_mapping_in_mb : Nat
deriving DecidableEq, Repr

/-- Device set: com ports and SCSI controllers are keyed maps in the schema,
modelled as association lists in the order the source builds them. -/
structure Devices where
  com_ports : List (Nat × ComPort)
  scsi : List (String × ScsiDev)
  virtual_smb : Option VirtualSmb
deriving DecidableEq, Repr

structure VirtualMachine where
  stop_on_reset : Bool
  chipset : Chipset
  compute_topology : Topology
  devices : Devices
deriving DecidableEq, Repr

structure SchemaVersion where
  major : Nat
  minor : Nat
deriving DecidableEq, Repr

/-- `Version::schema_version_19h1()` (exact numbers are irrelevant to the
claims; it is a fixed constant). -/
def schemaVersion19h1 : SchemaVersion := ⟨2, 2⟩

structure ComputeSystem where
  owner : String
  schema_version : SchemaVersion
  virtual_machine : Option VirtualMachine
  should_terminate_on_last_handle_closed : Bool
deriving DecidableEq, Repr

/- ## Path helpers (std::path parent / file_name on canonicalized Windows paths) -/

/-- `Path::file_name` on a canonicalized Windows path: the maximal suffix
containing no backslash separator. -/
def rsFileName (s : String) : String :=
  String.mk ((s.toList.reverse.takeWhile (fun c => c ≠ '\\')).reverse)

/-- `Path::parent` (rendered with `to_string_lossy`) on a canonicalized
Windows path: everything before the final separator. -/
def rsParent (s : String) : String :=
  String.mk (s.toList.take (s.toList.length - (rsFileName s).toList.length - 1))

/-- The console channel name `format!("\\\\.\\pipe\\vm_{name}_com1")`. -/
def pipeName (name : String) : String :=
  "\\\\.\\pipe\\vm_" ++ name ++ "_com1"

/- ## The Machine Descriptor Builder: the `ComputeSystem` value assembled in
`Hypervisor::build` (hypervisor.rs lines 32-108). -/

def buildDescriptor (name : String) (cliargs : CLIArgs) : ComputeSystem :=
  { owner := name
    schema_version := schemaVersion19h1
    virtual_machine := some
      { stop_on_reset := true
        chipset :=
          { uefi := some
              { enable_debugger := false
                secure_boot_template_id := none
                boot_this := some
                  { device_type := .vmbFs
                    device_path := rsFileName cliargs.efi_file
                    disk_number := 0 }
                console := .comPort1
                stop_on_boot_failure := false } }
        compute_topology :=
          { memory := { size_in_mb := cliargs.memory }
            processor :=
              { count := cliargs.cores
                limit := none
                weight := none
                expose_virtualization_extensions := true } }
        devices :=
          { com_ports := [(0, { named_pipe := pipeName name, optimize_for_debugger := false })]
            scsi := cliargs.disks.enum.map (fun p =>
              ("disk-" ++ toString p.1,
                { attachments := [(0, { attachment_type := .virtualDisk, path := p.2 })] }))
            virtual_smb := some
              { shares := [
                  { name := "smb"
                    path := rsParent cliargs.efi_file
                    allowed_files := []
                    options :=
                      { restrict_file_access := false
                        single_file_mapping := true
                        read_only := true
                        pseudo_oplocks := true
                        take_backup_privilege := true
                        cacheIo := true
                        share_read := true } }]
                direct_file_mapping_in_mb := 128 } } }
    should_terminate_on_last_handle_closed := true }

/-- The device set of the built descriptor (total accessor: the source always
populates `virtual_machine`). -/
def descriptorDevices (name : String) (cliargs : CLIArgs) : Devices :=
  ((buildDescriptor name cliargs).virtual_machine.map VirtualMachine.devices).getD
    ⟨[], [], none⟩

/- ## Operation Bridge (hypervisor.rs `async_operation` / `_handler`)

Per operation, `async_operation` allocates a oneshot channel, transmutes the
sender into the callback context, and returns the receiver wrapped in
`rx.await.unwrap_unchecked()`.  The callback `_handler` reads the operation
result, closes the low-level operation handle, and sends the outcome
(tolerating a failed send).  We model the per-operation bridging state and
the effect of one callback invocation, then run an arbitrary schedule of
callback invocations over `n` operations. -/

/-- Bridging state of one operation: the completion slot contents (what
`rx.await` will see), whether the sender end is still live, and how many
times `close_operation` ran on this operation's handle. -/
structure BridgeState where
  sent : Option OperationResult
  senderLive : Bool
  closed : Nat
deriving DecidableEq, Repr

/-- State right after `async_operation`: empty slot, live sender, handle open. -/
def BridgeState.init : BridgeState := ⟨none, true, 0⟩

/-- Effect of `_handler` firing with outcome `r`: retrieve the result, close
the operation handle, consume the sender publishing the outcome into the
slot (the receiver is held by the awaiting future, so the send lands). -/
def handlerFire (r : OperationResult) (s : BridgeState) : BridgeState :=
  ⟨some r, false, s.closed + 1⟩

/-- `rx.await`: the value extracted from the completion slot, `none` when no
callback has published (where `unwrap_unchecked` would be undefined). -/
def recvOutcome (s : BridgeState) : Option OperationResult := s.sent

/-- Run a schedule of callback invocations (operation index, outcome) over
the per-operation bridge states, in the order the service fires them. -/
def runCallbacks (evs : List (Nat × OperationResult)) (st : Nat → BridgeState) :
    Nat → BridgeState :=
  evs.foldl (fun st ev => fun j => if j = ev.1 then handlerFire ev.2 (st j) else st j) st

/- ## Console Proxy attach loop (hypervisor.rs `proxy_serial`, lines 153-160) -/

/-- Model of `std::io::Error` as seen by the loop: its raw OS error code. -/
structure IoError where
  rawOsError : Option Int
deriving DecidableEq, Repr

/-- Outcome of one `ClientOptions::new().open(pipe)` attempt. -/
inductive OpenRes where
  | ok
  | err (e : IoError)
deriving DecidableEq, Repr

/-- Result of running the attach loop over a finite window of attempts,
carrying the total milliseconds slept so far. `running` means the window
was exhausted with the loop still retrying. -/
inductive LoopOutcome where
  | attached (elapsedMs : Nat)
  | fatal (e : IoError) (elapsedMs : Nat)
  | running (elapsedMs : Nat)
deriving DecidableEq, Repr

/-- The retry loop of `proxy_serial`: break on success; on an error whose raw
OS code is 231 (pipe busy), sleep 50 ms and retry; return any other error
immediately. -/
def attachLoop : List OpenRes → Nat → LoopOutcome
  | [], d => .running d
  | .ok :: _, d => .attached d
  | .err e :: rest, d =>
    if e.rawOsError = some 231 then attachLoop rest (d + 50) else .fatal e d

/- ## Lifecycle Orchestrator (`Hypervisor::build`, hypervisor.rs lines 110-147)

The virtualization service is modelled as an oracle fixing, for each of the
three lifecycle operations, how it behaves: `async_operation` may fail
(`allocErr`), the synchronous hcs call may fail (`callErr`), or the awaited
asynchronous outcome is delivered (`outcome`); plus the sequence of open
results the console proxy will observe.  `serde_json::from_str::<Value>`
followed by `response["RuntimeId"].as_str()` is modelled by a parameter
`parse : String → Option String` returning `none` exactly when the response
is not valid JSON or lacks a string `RuntimeId` field. -/

inductive OpSpec where
  | allocErr (c : ResultCode)
  | callErr (c : ResultCode)
  | outcome (r : OperationResult)
deriving DecidableEq, Repr

structure Service where
  createStep : OpSpec
  queryStep : OpSpec
  startStep : OpSpec
  proxyOpen : List OpenRes
deriving DecidableEq, Repr

/-- Requests `Hypervisor::build` issues against the service, in order.
`destroy` models a compute-system teardown/rollback request; the source has
no call that would emit it. -/
inductive StepCall where
  | create (name : String)
  | query
  | start
  | proxy (pipe : String)
  | destroy
deriving DecidableEq, Repr

/-- How `Hypervisor::build` terminates: returning `Ok`, returning an error
code, panicking (an `unwrap` failure aborts rather than returns), or still
suspended inside the attach retry loop at the end of the modelled window. -/
inductive BuildOutcome where
  | ok
  | err (c : ResultCode)
  | panic
  | pending
deriving DecidableEq, Repr

def BuildOutcome.isErr : BuildOutcome → Bool
  | .err _ => true
  | _ => false

/-- Did this lifecycle operation complete with a success outcome? -/
def OpSpec.succeeded : OpSpec → Bool
  | .outcome (.ok _) => true
  | _ => false

/-- `Hypervisor::build`'s control flow over the service oracle: the final
outcome paired with the trace of requests issued, in order.  Each step is a
direct transcription of the corresponding `?`/`await`/`unwrap` chain. -/
def buildRun (name : String) (svc : Service) (parse : String → Option String) :
    BuildOutcome × List StepCall :=
  match svc.createStep with
  | .allocErr c => (.err c, [])
  | .callErr c => (.err c, [.create name])
  | .outcome (.err c _) => (.err c, [.create name])
  | .outcome (.ok _) =>
    match svc.queryStep with
    | .allocErr c => (.err c, [.create name])
    | .callErr c => (.err c, [.create name, .query])
    | .outcome (.err c _) => (.err c, [.create name, .query])
    | .outcome (.ok resp) =>
      match parse resp with
      | none => (.panic, [.create name, .query])
      | some _ =>
        match svc.startStep with
        | .allocErr c => (.err c, [.create name, .query])
        | .callErr c => (.err c, [.create name, .query, .start])
        | .outcome (.err c _) => (.err c, [.create name, .query, .start])
        | .outcome (.ok _) =>
          match attachLoop svc.proxyOpen 0 with
          | .attached _ => (.ok, [.create name, .query, .start, .proxy (pipeName name)])
          | .fatal _ _ =>
            (.err .unexpected, [.create name, .query, .start, .proxy (pipeName name)])
          | .running _ => (.pending, [.create name, .query, .start, .proxy (pipeName name)])

/-- `main` (main.rs line 50): after validation and canonicalization, the
hypervisor is always built with the fixed VM name `"rust-vm"`. -/
def mainVmName : String := "rust-vm"

/-- The lifecycle run as invoked from `main`: the VM name is the constant
`mainVmName` regardless of CLI input. -/
def mainRun (svc : Service) (parse : String → Option String) :
    BuildOutcome × List StepCall :=
  buildRun mainVmName svc parse

/- ## Derived accessors used in theorem statements -/

/-- The boot entry's device path declared by the descriptor. -/
def descriptorBootPath (name : String) (args : CLIArgs) : Option String :=
  (buildDescriptor name args).virtual_machine.bind (fun vm =>
    vm.chipset.uefi.bind (fun u => u.boot_this.map (fun b => b.device_path)))

/-- The host directory exposed as the file-share root by the descriptor. -/
def descriptorShareRoot (name : String) (args : CLIArgs) : Option String :=
  (buildDescriptor name args).virtual_machine.bind (fun vm =>
    vm.devices.virtual_smb.bind (fun v => (v.shares.map VirtualSmbShare.path).head?))

/-- Did the identity-query step complete successfully with a response from
which the runtime identifier could be extracted? -/
def queryParsedOk (svc : Service) (parse : String → Option String) : Bool :=
  match svc.queryStep with
  | .outcome (.ok r) => (parse r).isSome
  | _ => false

/- ## Descriptor serialization -/

def jsonEscape (s : String) : String :=
  s.toList.foldl (fun acc c =>
    acc ++ (if c = '\\' then "\\\\" else if c = '"' then "\\\"" else String.singleton c)) ""

def jStr (s : String) : String := "\"" ++ jsonEscape s ++ "\""

def jBool (b : Bool) : String := if b then "true" else "false"

def jObj (fields : List (String × String)) : String :=
  "\x7b" ++ String.intercalate "," (fields.map (fun p => jStr p.1 ++ ":" ++ p.2)) ++ "\x7d"

def jArr (xs : List String) : String := "[" ++ String.intercalate "," xs ++ "]"

def serializeAttachment (a : Attachment) : String :=
  jObj [("Type", jStr "VirtualDisk"), ("Path", jStr a.path)]

def serializeScsiDev (s : ScsiDev) : String :=
  jObj [("Attachments",
    jObj (s.attachments.map (fun p => (toString p.1, serializeAttachment p.2))))]

def serializeComPort (c : ComPort) : String :=
  jObj [("NamedPipe", jStr c.named_pipe), ("OptimizeForDebugger", jBool c.optimize_for_debugger)]

def serializeUefi (u : Uefi) : String :=
  jObj [("EnableDebugger", jBool u.enable_debugger),
        ("BootThis",
          match u.boot_this with
          | none => "null"
          | some b => jObj [("DeviceType", jStr "VmbFs"),
                            ("DevicePath", jStr b.device_path),
                            ("DiskNumber", toString b.disk_number)]),
        ("Console", jStr (match u.console with | .off => "Off" | .comPort1 => "ComPort1")),
        ("StopOnBootFailure", jBool u.stop_on_boot_failure)]

def serializeTopology (t : Topology) : String :=
  jObj [("Memory", jObj [("SizeInMB", toString t.memory.size_in_mb)]),
        ("Processor",
          jObj [("Count", toString t.processor.count),
                ("ExposeVirtualizationExtensions",
                  jBool t.processor.expose_virtualization_extensions)])]

def serializeSmbShare (s : VirtualSmbShare) : String :=
  jObj [("Name", jStr s.name), ("Path", jStr s.path),
        ("AllowedFiles", jArr (s.allowed_files.map jStr)),
        ("Options",
          jObj [("ReadOnly", jBool s.options.read_only),
                ("SingleFileMapping", jBool s.options.single_file_mapping),
                ("PseudoOplocks", jBool s.options.pseudo_oplocks),
                ("TakeBackupPrivilege", jBool s.options.take_backup_privilege),
                ("CacheIo", jBool s.options.cacheIo),
                ("ShareRead", jBool s.options.share_read),
                ("RestrictFileAccess", jBool s.options.restrict_file_access)])]

def serializeDevices (d : Devices) : String :=
  jObj [("ComPorts", jObj (d.com_ports.map (fun p => (toString p.1, serializeComPort p.2)))),
        ("Scsi", jObj (d.scsi.map (fun p => (p.1, serializeScsiDev p.2)))),
        ("VirtualSmb",
          match d.virtual_smb with
          | none => "null"
          | some v =>
            jObj [("Shares", jArr (v.shares.map serializeSmbShare)),
                  ("DirectFileMappingInMB", toString v.direct_file_mapping_in_mb)])]

/-- Modelled from the spec: the serialization of the descriptor is performed
by the external serde/hcs-rs schema code, which is not part of src/; the
spec fixes only its interface — "a structured document (field names and
nesting as enumerated in §3/§4.2) handed to the service verbatim; this
system must serialize it deterministically" — so it is modelled as a pure
function emitting every field in one fixed order. -/
def serializeComputeSystem (cs : ComputeSystem) : String :=
  jObj [("Owner", jStr cs.owner),
        ("SchemaVersion",
          jObj [("Major", toString cs.schema_version.major),
                ("Minor", toString cs.schema_version.minor)]),
        ("ShouldTerminateOnLastHandleClosed",
          jBool cs.should_terminate_on_last_handle_closed),
        ("VirtualMachine",
          match cs.virtual_machine with
          | none => "null"
          | some vm =>
            jObj [("StopOnReset", jBool vm.stop_on_reset),
                  ("Chipset",
                    match vm.chipset.uefi with
                    | none => jObj [("Uefi", "null")]
                    | some u => jObj [("Uefi", serializeUefi u)]),
                  ("ComputeTopology", serializeTopology vm.compute_topology),
                  ("Devices", serializeDevices vm.devices)])]

/- ## Helper lemmas -/

lemma takeWhile_append_stop (p : Char → Bool) (l m : List Char) (c : Char)
    (hl : ∀ x ∈ l, p x = true) (hc : p c = false) :
    (l ++ c :: m).takeWhile p = l := by
  induction l with
  | nil => simp [List.takeWhile_cons, hc]
  | cons a t ih =>
      have ha : p a = true := hl a (List.mem_cons_self a t)
      simp only [List.cons_append, List.takeWhile_cons, ha, if_true]
      rw [ih (fun x hx => hl x (List.mem_cons_of_mem a hx))]

lemma toList_path_append (dir fname : String) :
    (dir ++ "\\" ++ fname).toList = dir.toList ++ '\\' :: fname.toList := by
  show ((dir ++ "\\") ++ fname).data = dir.data ++ '\\' :: fname.data
  rw [String.data_append, String.data_append]
  simp [List.append_assoc]

lemma rsFileName_append (dir fname : String)
    (hsep : ∀ c ∈ fname.toList, c ≠ '\\') :
    rsFileName (dir ++ "\\" ++ fname) = fname := by
  unfold rsFileName
  rw [toList_path_append, List.reverse_append, List.reverse_cons, List.append_assoc,
    List.singleton_append]
  rw [takeWhile_append_stop _ _ _ _
    (fun x hx => by simpa using hsep x (List.mem_reverse.mp hx)) (by simp)]
  rw [List.reverse_reverse]
  rfl

lemma rsParent_append (dir fname : String)
    (hsep : ∀ c ∈ fname.toList, c ≠ '\\') :
    rsParent (dir ++ "\\" ++ fname) = dir := by
  unfold rsParent
  rw [rsFileName_append dir fname hsep, toList_path_append]
  have hlen : (dir.toList ++ '\\' :: fname.toList).length - fname.toList.length - 1
      = dir.toList.length := by
    simp only [List.length_append, List.length_cons]
    omega
  rw [hlen, List.take_left]
  rfl

/- ## Claim theorems -/

/-- C1: for every input, the descriptor's SCSI device list has exactly one
entry per supplied disk, the entries' keys carry the contiguous zero-based
indices 0..N-1 (key `disk-i` for position i), and the i-th entry's single
attachment references the i-th disk path unmodified. -/
theorem scsi_entries_contiguous (name : String) (args : CLIArgs) :
    (descriptorDevices name args).scsi.length = args.disks.length
    ∧ (descriptorDevices name args).scsi.map Prod.fst
        = (List.range args.disks.length).map (fun i => "disk-" ++ toString i)
    ∧ (descriptorDevices name args).scsi.map (fun e => e.2.attachments)
        = args.disks.map (fun d => [(0, { attachment_type := .virtualDisk, path := d })]) := by
  have hs : (descriptorDevices name args).scsi
      = args.disks.enum.map (fun p => ("disk-" ++ toString p.1,
          ({ attachments := [(0, { attachment_type := .virtualDisk, path := p.2 })] }
            : ScsiDev))) := rfl
  refine ⟨?_, ?_, ?_⟩
  · simp [hs]
  · rw [hs, List.map_map, ← List.enum_map_fst args.disks, List.map_map]
    rfl
  · rw [hs, List.map_map]
    conv_rhs => rw [← List.enum_map_snd args.disks]
    rw [List.map_map]
    rfl

/-- C8: for a canonicalized boot image path `dir\fname` (file name nonempty,
containing no separator), the descriptor's file-share root is the containing
directory `dir`, the boot device path is the bare file name `fname` (hence
contains no host path separator), the SCSI list has one entry per disk, and
exactly one serial port entry exists. -/
theorem boot_path_relative_to_share (name dir fname : String) (disks : List String)
    (mem cores : Nat) (_hne : fname ≠ "") (hsep : ∀ c ∈ fname.toList, c ≠ '\\') :
    descriptorBootPath name ⟨dir ++ "\\" ++ fname, disks, mem, cores⟩ = some fname
    ∧ descriptorShareRoot name ⟨dir ++ "\\" ++ fname, disks, mem, cores⟩ = some dir
    ∧ (∀ p, descriptorBootPath name ⟨dir ++ "\\" ++ fname, disks, mem, cores⟩ = some p →
        ∀ c ∈ p.toList, c ≠ '\\')
    ∧ (descriptorDevices name ⟨dir ++ "\\" ++ fname, disks, mem, cores⟩).scsi.length
        = disks.length
    ∧ (descriptorDevices name ⟨dir ++ "\\" ++ fname, disks, mem, cores⟩).com_ports
        = [(0, { named_pipe := pipeName name, optimize_for_debugger := false })] := by
  have hfile : descriptorBootPath name ⟨dir ++ "\\" ++ fname, disks, mem, cores⟩
      = some fname := by
    simp [descriptorBootPath, buildDescriptor, rsFileName_append dir fname hsep]
  refine ⟨hfile, ?_, ?_, ?_, ?_⟩
  · simp [descriptorShareRoot, buildDescriptor, rsParent_append dir fname hsep]
  · intro p hp
    rw [hfile] at hp
    cases hp
    exact hsep
  · simp [descriptorDevices, buildDescriptor]
  · simp [descriptorDevices, buildDescriptor]

/-- Witness for C8 at the spec's scenario: boot image `C:\vm\boot.efi`, no
disks, memory 512, cores 1. -/
theorem boot_path_relative_to_share_witness :
    descriptorBootPath "rust-vm" ⟨"C:\\vm" ++ "\\" ++ "boot.efi", [], 512, 1⟩
        = some "boot.efi"
    ∧ descriptorShareRoot "rust-vm" ⟨"C:\\vm" ++ "\\" ++ "boot.efi", [], 512, 1⟩
        = some "C:\\vm"
    ∧ (descriptorDevices "rust-vm" ⟨"C:\\vm" ++ "\\" ++ "boot.efi", [], 512, 1⟩).scsi.length
        = 0
    ∧ (descriptorDevices "rust-vm" ⟨"C:\\vm" ++ "\\" ++ "boot.efi", [], 512, 1⟩).com_ports
        = [(0, { named_pipe := pipeName "rust-vm", optimize_for_debugger := false })] := by
  have h := boot_path_relative_to_share "rust-vm" "C:\\vm" "boot.efi" [] 512 1
    (by decide) (by decide)
  exact ⟨h.1, h.2.1, h.2.2.2.1, h.2.2.2.2⟩

lemma runCallbacks_eq_filter (evs : List (Nat × OperationResult))
    (st : Nat → BridgeState) (j : Nat) :
    runCallbacks evs st j
      = ((evs.filter (fun e => e.1 = j)).map Prod.snd).foldl
          (fun s r => handlerFire r s) (st j) := by
  induction evs generalizing st with
  | nil => rfl
  | cons ev rest ih =>
      rw [show runCallbacks (ev :: rest) st
          = runCallbacks rest (fun k => if k = ev.1 then handlerFire ev.2 (st k) else st k)
          from rfl, ih]
      by_cases h : ev.1 = j
      · subst h
        simp [List.filter_cons]
      · have h' : ¬ (j = ev.1) := fun hh => h hh.symm
        simp [List.filter_cons, h, h']

/-- C2: exactly-once delivery.  Over `n` operations, for any service schedule
of callback invocations in which each operation's callback fires exactly once
(with outcome `out j` for operation `j`), every operation's completion slot
ends holding exactly its own outcome — so `rx.await`'s extraction succeeds
(`recvOutcome` is `some`), nothing is lost or duplicated, and the low-level
handle was closed exactly once, by the callback; consequently the `n`
received outcomes are exactly the `n` assigned ones. -/
theorem operation_bridge_exactly_once (n : Nat) (evs : List (Nat × OperationResult))
    (out : Nat → OperationResult)
    (h : ∀ j, j < n → evs.filter (fun e => e.1 = j) = [(j, out j)]) :
    (∀ j, j < n →
      runCallbacks evs (fun _ => BridgeState.init) j = ⟨some (out j), false, 1⟩)
    ∧ (List.range n).map
        (fun j => recvOutcome (runCallbacks evs (fun _ => BridgeState.init) j))
      = (List.range n).map (fun j => some (out j)) := by
  have key : ∀ j, j < n →
      runCallbacks evs (fun _ => BridgeState.init) j = ⟨some (out j), false, 1⟩ := by
    intro j hj
    rw [runCallbacks_eq_filter, h j hj]
    rfl
  refine ⟨key, List.map_congr_left ?_⟩
  intro j hj
  rw [key j (List.mem_range.mp hj)]
  rfl

/-- Witness for C2: two operations completed in reversed (adversarial) order
each deliver exactly their own outcome, with the handle closed once. -/
theorem operation_bridge_exactly_once_witness :
    runCallbacks [(1, .ok "b"), (0, .ok "a")] (fun _ => BridgeState.init) 0
      = ⟨some (.ok "a"), false, 1⟩
    ∧ runCallbacks [(1, .ok "b"), (0, .ok "a")] (fun _ => BridgeState.init) 1
      = ⟨some (.ok "b"), false, 1⟩ := by
  have h := operation_bridge_exactly_once 2 [(1, .ok "b"), (0, .ok "a")]
    (fun j => if j = 0 then .ok "a" else .ok "b") (by decide)
  exact ⟨h.1 0 (by decide), h.1 1 (by decide)⟩

lemma attachLoop_busy_run (window : List OpenRes) (d : Nat)
    (h : ∀ r ∈ window, r = OpenRes.err ⟨some 231⟩) :
    attachLoop window d = .running (d + 50 * window.length) := by
  induction window generalizing d with
  | nil => simp [attachLoop]
  | cons r rest ih =>
      have hr := h r (List.mem_cons_self r rest)
      subst hr
      show (if (some 231 : Option Int) = some 231
          then attachLoop rest (d + 50) else .fatal ⟨some 231⟩ d) = _
      rw [if_pos rfl, ih (d + 50) (fun x hx => h x (List.mem_cons_of_mem _ hx))]
      congr 1
      simp [List.length_cons]
      ring

/-- C7: the attach loop of the Console Proxy retries exactly on the
pipe-busy condition (raw OS error 231), sleeping a fixed 50 ms per retry: a
window of attempts that all report busy leaves the loop still running (it
never exits with an error on its own) having slept 50 ms per attempt; any
other open failure is returned immediately as fatal, with no further delay;
a successful open attaches immediately. -/
theorem console_attach_retry (window rest : List OpenRes) (e : IoError) :
    ((∀ r ∈ window, r = OpenRes.err ⟨some 231⟩) →
      attachLoop window 0 = .running (50 * window.length))
    ∧ (e.rawOsError ≠ some 231 →
        attachLoop (.err e :: rest) 0 = .fatal e 0)
    ∧ attachLoop (.ok :: rest) 0 = .attached 0 := by
  refine ⟨?_, ?_, rfl⟩
  · intro h
    simpa using attachLoop_busy_run window 0 h
  · intro h
    simp [attachLoop, h]

/-- Witness for C7: two busy attempts keep the loop running with 100 ms
slept; a non-busy error (raw OS code 2) is fatal at once; a success
attaches at once. -/
theorem console_attach_retry_witness :
    attachLoop [.err ⟨some 231⟩, .err ⟨some 231⟩] 0 = .running 100
    ∧ attachLoop [.err ⟨some 2⟩] 0 = .fatal ⟨some 2⟩ 0
    ∧ attachLoop [.ok] 0 = .attached 0 := by
  have h := console_attach_retry [.err ⟨some 231⟩, .err ⟨some 231⟩] [] ⟨some 2⟩
  exact ⟨by simpa using h.1 (by decide), h.2.1 (by decide), h.2.2⟩

/-- C4: if the create step's asynchronous outcome reports failure, the
identity-query and start requests are never issued and the launch terminates
with the service's result code; more generally a request is only ever issued
after every earlier step's outcome was observed as a success (step N+1 never
runs before step N's outcome). -/
theorem lifecycle_stops_on_create_failure (name : String) (svc : Service)
    (parse : String → Option String) :
    (∀ c r, svc.createStep = .outcome (.err c r) →
      buildRun name svc parse = (.err c, [.create name]))
    ∧ (StepCall.query ∈ (buildRun name svc parse).2 →
        svc.createStep.succeeded = true)
    ∧ (StepCall.start ∈ (buildRun name svc parse).2 →
        svc.createStep.succeeded = true ∧ queryParsedOk svc parse = true)
    ∧ (∀ p, StepCall.proxy p ∈ (buildRun name svc parse).2 →
        svc.createStep.succeeded = true ∧ queryParsedOk svc parse = true
          ∧ svc.startStep.succeeded = true) := by
  obtain ⟨cs, qs, ss, po⟩ := svc
  refine ⟨?_, ?_, ?_, ?_⟩
  · intro c r h
    dsimp only at h
    subst h
    rfl
  · intro hmem
    rcases cs with c | c | r
    · simp [buildRun] at hmem
    · simp [buildRun] at hmem
    · rcases r with resp | ⟨c, resp⟩
      · rfl
      · simp [buildRun] at hmem
  · intro hmem
    rcases cs with c | c | r
    · simp [buildRun] at hmem
    · simp [buildRun] at hmem
    · rcases r with resp | ⟨c, resp⟩
      · rcases qs with c | c | r2
        · simp [buildRun] at hmem
        · simp [buildRun] at hmem
        · rcases r2 with resp2 | ⟨c, resp2⟩
          · cases hp : parse resp2 with
            | none => simp [buildRun, hp] at hmem
            | some uid => exact ⟨rfl, by simp [queryParsedOk, hp]⟩
          · simp [buildRun] at hmem
      · simp [buildRun] at hmem
  · intro p hmem
    rcases cs with c | c | r
    · simp [buildRun] at hmem
    · simp [buildRun] at hmem
    · rcases r with resp | ⟨c, resp⟩
      · rcases qs with c | c | r2
        · simp [buildRun] at hmem
        · simp [buildRun] at hmem
        · rcases r2 with resp2 | ⟨c, resp2⟩
          · cases hp : parse resp2 with
            | none => simp [buildRun, hp] at hmem
            | some uid =>
                rcases ss with c | c | r3
                · simp [buildRun, hp] at hmem
                · simp [buildRun, hp] at hmem
                · rcases r3 with resp3 | ⟨c, resp3⟩
                  · exact ⟨rfl, by simp [queryParsedOk, hp], rfl⟩
                  · simp [buildRun, hp] at hmem
          · simp [buildRun] at hmem
      · simp [buildRun] at hmem

/-- Witness for C4: a run whose create outcome is a failure issues only the
create request and terminates with the service's result code. -/
theorem lifecycle_stops_on_create_failure_witness :
    buildRun "rust-vm"
      ⟨.outcome (.err (.hresult 5) "boom"), .outcome (.ok "q"), .outcome (.ok "s"), []⟩
      (fun _ => some "id")
      = (.err (.hresult 5), [.create "rust-vm"]) :=
  (lifecycle_stops_on_create_failure "rust-vm"
    ⟨.outcome (.err (.hresult 5) "boom"), .outcome (.ok "q"), .outcome (.ok "s"), []⟩
    (fun _ => some "id")).1 (.hresult 5) "boom" rfl

/-- C5 (amended): with the create step succeeded, a failure outcome of the
identity-query step makes the launch return that error with the start step
never invoked and no rollback (`destroy`) issued; if instead the query
outcome succeeds but the runtime identifier cannot be parsed from the
response, `Hypervisor::build` panics (it does not return an error result),
and the start step is likewise never invoked and nothing is rolled back. -/
theorem query_failure_aborts (name : String) (svc : Service)
    (parse : String → Option String) (r : String)
    (hc : svc.createStep = .outcome (.ok r)) :
    (∀ c resp, svc.queryStep = .outcome (.err c resp) →
      buildRun name svc parse = (.err c, [.create name, .query])
      ∧ StepCall.start ∉ (buildRun name svc parse).2
      ∧ StepCall.destroy ∉ (buildRun name svc parse).2)
    ∧ (∀ resp, svc.queryStep = .outcome (.ok resp) → parse resp = none →
      buildRun name svc parse = (.panic, [.create name, .query])
      ∧ StepCall.start ∉ (buildRun name svc parse).2
      ∧ StepCall.destroy ∉ (buildRun name svc parse).2) := by
  obtain ⟨cs, qs, ss, po⟩ := svc
  dsimp only at hc
  subst hc
  constructor
  · intro c resp hq
    dsimp only at hq
    subst hq
    exact ⟨rfl, by simp [buildRun], by simp [buildRun]⟩
  · intro resp hq hp
    dsimp only at hq
    subst hq
    exact ⟨by simp [buildRun, hp], by simp [buildRun, hp], by simp [buildRun, hp]⟩

/-- Counterexample for C5 as stated: create succeeds, the query operation
succeeds but its response is unparseable — the launch does not produce an
error result (it panics), contradicting "the overall launch result is an
error". -/
theorem query_parse_failure_not_an_error :
    (buildRun "rust-vm"
      ⟨.outcome (.ok "created"), .outcome (.ok "not-json"), .outcome (.ok "started"), []⟩
      (fun _ => none)).1 = .panic
    ∧ ((buildRun "rust-vm"
      ⟨.outcome (.ok "created"), .outcome (.ok "not-json"), .outcome (.ok "started"), []⟩
      (fun _ => none)).1).isErr = false :=
  ⟨rfl, rfl⟩

/-- Witness for C5 (amended): a concrete run where the query outcome is a
failure returns its code having issued exactly create then query. -/
theorem query_failure_aborts_witness :
    buildRun "rust-vm"
      ⟨.outcome (.ok "c"), .outcome (.err (.hresult 7) "diag"), .outcome (.ok "s"), []⟩
      (fun _ => some "id")
      = (.err (.hresult 7), [.create "rust-vm", .query])
    ∧ StepCall.start ∉ (buildRun "rust-vm"
        ⟨.outcome (.ok "c"), .outcome (.err (.hresult 7) "diag"), .outcome (.ok "s"), []⟩
        (fun _ => some "id")).2
    ∧ StepCall.destroy ∉ (buildRun "rust-vm"
        ⟨.outcome (.ok "c"), .outcome (.err (.hresult 7) "diag"), .outcome (.ok "s"), []⟩
        (fun _ => some "id")).2 :=
  (query_failure_aborts "rust-vm"
    ⟨.outcome (.ok "c"), .outcome (.err (.hresult 7) "diag"), .outcome (.ok "s"), []⟩
    (fun _ => some "id") "c" rfl).1 (.hresult 7) "diag" rfl

/-- C9: if the create step succeeded and the identity-query operation
succeeds but its response is not valid JSON or lacks a string `RuntimeId`
field (modelled: `parse` returns `none`), `Hypervisor::build` panics rather
than returning an error result, having issued exactly create then query. -/
theorem query_unparseable_panics (name : String) (svc : Service)
    (parse : String → Option String) (r resp : String)
    (hc : svc.createStep = .outcome (.ok r))
    (hq : svc.queryStep = .outcome (.ok resp))
    (hp : parse resp = none) :
    buildRun name svc parse = (.panic, [.create name, .query]) := by
  obtain ⟨cs, qs, ss, po⟩ := svc
  dsimp only at hc hq
  subst hc
  subst hq
  simp [buildRun, hp]

/-- Witness for C9: a concrete unparseable query response makes the run
panic after create and query. -/
theorem query_unparseable_panics_witness :
    buildRun "rust-vm"
      ⟨.outcome (.ok "c"), .outcome (.ok "garbage"), .outcome (.ok "s"), []⟩
      (fun _ => none)
      = (.panic, [.create "rust-vm", .query]) :=
  query_unparseable_panics "rust-vm"
    ⟨.outcome (.ok "c"), .outcome (.ok "garbage"), .outcome (.ok "s"), []⟩
    (fun _ => none) "c" "garbage" rfl rfl rfl


/-- Any trace of `Hypervisor::build` is one of the five ordered stages of
the lifecycle: requests are only ever issued in the fixed order create,
query, start, proxy. -/
lemma buildRun_trace_shape (name : String) (svc : Service)
    (parse : String → Option String) :
    (buildRun name svc parse).2 = []
    ∨ (buildRun name svc parse).2 = [.create name]
    ∨ (buildRun name svc parse).2 = [.create name, .query]
    ∨ (buildRun name svc parse).2 = [.create name, .query, .start]
    ∨ (buildRun name svc parse).2
        = [.create name, .query, .start, .proxy (pipeName name)] := by
  obtain ⟨cs, qs, ss, po⟩ := svc
  rcases cs with c | c | (resp | ⟨c, resp⟩)
  · exact Or.inl rfl
  · exact Or.inr (Or.inl rfl)
  · rcases qs with c2 | c2 | (resp2 | ⟨c2, resp2⟩)
    · exact Or.inr (Or.inl rfl)
    · exact Or.inr (Or.inr (Or.inl rfl))
    · cases hp : parse resp2 with
      | none => exact Or.inr (Or.inr (Or.inl (by simp [buildRun, hp])))
      | some uid =>
          rcases ss with c3 | c3 | (resp3 | ⟨c3, resp3⟩)
          · exact Or.inr (Or.inr (Or.inl (by simp [buildRun, hp])))
          · exact Or.inr (Or.inr (Or.inr (Or.inl (by simp [buildRun, hp]))))
          · rcases hal : attachLoop po 0 with d | ⟨e, d⟩ | d <;>
              exact Or.inr (Or.inr (Or.inr (Or.inr (by simp [buildRun, hp, hal]))))
          · exact Or.inr (Or.inr (Or.inr (Or.inl (by simp [buildRun, hp]))))
    · exact Or.inr (Or.inr (Or.inl rfl))
  · exact Or.inr (Or.inl rfl)

/-- C6: the descriptor binds serial port 0 — and only port 0 — to the named
channel `\\.\pipe\vm_<name>_com1`, and on a fully successful lifecycle the
Console Proxy is invoked to open exactly that same channel name. -/
theorem serial_channel_name_consistent (name : String) (args : CLIArgs)
    (svc : Service) (parse : String → Option String) (r1 r2 r3 uid : String)
    (hc : svc.createStep = .outcome (.ok r1))
    (hq : svc.queryStep = .outcome (.ok r2))
    (hp : parse r2 = some uid)
    (hs : svc.startStep = .outcome (.ok r3)) :
    (descriptorDevices name args).com_ports
      = [(0, { named_pipe := pipeName name, optimize_for_debugger := false })]
    ∧ pipeName name = "\\\\.\\pipe\\vm_" ++ name ++ "_com1"
    ∧ (buildRun name svc parse).2
      = [.create name, .query, .start, .proxy (pipeName name)] := by
  obtain ⟨cs, qs, ss, po⟩ := svc
  dsimp only at hc hq hs
  subst hc
  subst hq
  subst hs
  refine ⟨rfl, rfl, ?_⟩
  rcases hal : attachLoop po 0 with d | ⟨e, d⟩ | d <;> simp [buildRun, hp, hal]

/-- Witness for C6: a concrete all-success run of the VM named `demo`
declares port 0 on `\\.\pipe\vm_demo_com1` and hands exactly that name to
the proxy. -/
theorem serial_channel_name_consistent_witness :
    (descriptorDevices "demo" ⟨"C:\\vm\\boot.efi", [], 512, 1⟩).com_ports
      = [(0, { named_pipe := pipeName "demo", optimize_for_debugger := false })]
    ∧ pipeName "demo" = "\\\\.\\pipe\\vm_" ++ "demo" ++ "_com1"
    ∧ (buildRun "demo"
        ⟨.outcome (.ok "c"), .outcome (.ok "q"), .outcome (.ok "s"), [.ok]⟩
        (fun _ => some "id")).2
      = [.create "demo", .query, .start, .proxy (pipeName "demo")] :=
  serial_channel_name_consistent "demo" ⟨"C:\\vm\\boot.efi", [], 512, 1⟩
    ⟨.outcome (.ok "c"), .outcome (.ok "q"), .outcome (.ok "s"), [.ok]⟩
    (fun _ => some "id") "c" "q" "s" "id" rfl rfl rfl rfl

/-- C10: the VM name is the fixed constant `rust-vm` for every invocation:
the descriptor's owner, the name in any create request actually issued, and
the console channel name are identical across all runs, regardless of the
CLI input. -/
theorem vm_name_fixed (args : CLIArgs) (svc : Service)
    (parse : String → Option String) :
    (buildDescriptor mainVmName args).owner = "rust-vm"
    ∧ pipeName mainVmName = "\\\\.\\pipe\\vm_rust-vm_com1"
    ∧ (∀ nm, StepCall.create nm ∈ (mainRun svc parse).2 → nm = "rust-vm")
    ∧ (∀ p, StepCall.proxy p ∈ (mainRun svc parse).2
        → p = "\\\\.\\pipe\\vm_rust-vm_com1") := by
  refine ⟨rfl, by decide, ?_, ?_⟩
  · intro nm hmem
    simp only [mainRun] at hmem
    rcases buildRun_trace_shape mainVmName svc parse with h | h | h | h | h <;>
      rw [h] at hmem <;> simp at hmem <;> exact hmem
  · intro p hmem
    simp only [mainRun] at hmem
    rcases buildRun_trace_shape mainVmName svc parse with h | h | h | h | h <;>
      rw [h] at hmem <;> simp at hmem <;> exact hmem.trans (by decide)

/-- Witness for C10: on a concrete all-success run the issued create request
names `rust-vm` and the proxy opens `\\.\pipe\vm_rust-vm_com1`. -/
theorem vm_name_fixed_witness :
    (buildDescriptor mainVmName ⟨"C:\\vm\\boot.efi", [], 512, 1⟩).owner = "rust-vm"
    ∧ pipeName mainVmName = "\\\\.\\pipe\\vm_rust-vm_com1"
    ∧ "rust-vm" = "rust-vm"
    ∧ pipeName mainVmName = "\\\\.\\pipe\\vm_rust-vm_com1" := by
  have h := vm_name_fixed ⟨"C:\\vm\\boot.efi", [], 512, 1⟩
    ⟨.outcome (.ok "c"), .outcome (.ok "q"), .outcome (.ok "s"), [.ok]⟩
    (fun _ => some "id")
  exact ⟨h.1, h.2.1, h.2.2.1 "rust-vm" (by decide),
    h.2.2.2 (pipeName mainVmName) (by decide)⟩

/-- C3: descriptor serialization is deterministic — for one fixed input, any
two runs of the builder-plus-serializer produce character-identical
descriptor strings. -/
theorem descriptor_serialization_deterministic (name : String) (args : CLIArgs)
    (s1 s2 : String)
    (h1 : s1 = serializeComputeSystem (buildDescriptor name args))
    (h2 : s2 = serializeComputeSystem (buildDescriptor name args)) :
    s1 = s2 :=
  h1.trans h2.symm

/-- Witness for C3: two serializations of the same concrete input coincide. -/
theorem descriptor_serialization_deterministic_witness :
    serializeComputeSystem
        (buildDescriptor "rust-vm" ⟨"C:\\vm\\boot.efi", ["C:\\vm\\d0.vhdx"], 512, 1⟩)
      = serializeComputeSystem
        (buildDescriptor "rust-vm" ⟨"C:\\vm\\boot.efi", ["C:\\vm\\d0.vhdx"], 512, 1⟩) :=
  descriptor_serialization_deterministic "rust-vm"
    ⟨"C:\\vm\\boot.efi", ["C:\\vm\\d0.vhdx"], 512, 1⟩ _ _ rfl rfl
